import Mathlib

set_option maxRecDepth 20000

/-!
Verification of the Poly Edge B20 auto-reboot pipeline, a shallow embedding
of `src/poly_edge_b20_reboot.py`.

The script pings each phone from `devices.csv`; for reachable phones it
fetches the status page `DI_S_.xml`, extracts the UpTime and CallState
fields, appends one `(ip, name, uptime, callstate)` tuple to the shared
`log_entries` list, and issues a single reboot GET when the call state is
exactly "0 Active Calls".  A report is rendered from `log_entries` and
mailed with a bounded retry loop.

External effects (ping, driver creation, the headless-browser fetch, the
reboot GET, SMTP) are modelled as oracle inputs: a `DeviceEnv` records
whether the ping succeeds and what `create_driver()` does — raise (the
call sits outside every `try`, so the task aborts recording nothing) or
hand back a driver, in which case the oracle further records what the
status fetch yields and whether the reboot GET raises; the mail loop
takes a per-attempt success predicate.  The fleet pass and the main block
are modelled as `Option`-valued: `ThreadPoolExecutor(max_workers=0)`
raises an uncaught `ValueError` when the device list is empty, killing
the run before any report is written.  Every function below mirrors the
control flow of the corresponding Python function.
-/

/-- Python `str.strip()`: drop leading and trailing whitespace.  Written
over the character list so that it evaluates inside the kernel. -/
def strip (s : String) : String :=
  String.mk (((s.data.dropWhile Char.isWhitespace).reverse.dropWhile
    Char.isWhitespace).reverse)

/-- A device row as loaded from `devices.csv` (dict keys `ip`, `user`,
`pass`, `name`, each value stripped). -/
structure Device where
  ip : String
  user : String
  passwd : String
  name : String
  deriving DecidableEq

/-- One element of the shared `log_entries` list: the tuple
`(ip, name, uptime, callstate)` appended by `reboot_ipphone`. -/
structure LogEntry where
  ip : String
  name : String
  uptime : String
  callstate : String
  deriving DecidableEq

/-- The parts of the parsed status page that `get_ipphone_status` inspects.
`uptimeTd = some v` means the `td` labelled "UpTime" was found and `v` is
its following sibling `td` text (`none` when the sibling is missing).
`serviceStatus` nests the chain followed for CallState: a "Service Status"
title section, its following sibling table, a `td` labelled "CallState",
and the following sibling text of that cell; `none` at any level means that
element was absent. -/
structure StatusPage where
  uptimeTd : Option (Option String)
  serviceStatus : Option (Option (Option (Option String)))
  deriving DecidableEq

/-- Outcome of the status-fetch step in `get_ipphone_status`:
either the `driver.get`/parsing raised (`err`), or it produced a page. -/
inductive FetchResult where
  | err : FetchResult
  | ok : StatusPage → FetchResult
  deriving DecidableEq

/-- The UpTime extraction of `get_ipphone_status` (lines 93-96): the value
cell text stripped, or the initial sentinel when the label or its sibling
is absent. -/
def extract_uptime (p : StatusPage) : String :=
  match p.uptimeTd with
  | some (some txt) => strip txt
  | some none => "N/A"
  | none => "N/A"

/-- The CallState extraction of `get_ipphone_status` (lines 98-105): the
value cell text stripped when the whole section/table/label/sibling chain
is present, otherwise the initial sentinel. -/
def extract_callstate (p : StatusPage) : String :=
  match p.serviceStatus with
  | some (some (some (some txt))) => strip txt
  | _ => "N/A"

/-- `get_ipphone_status`: on any retrieval or parsing exception the
`except` clause returns the sentinel pair; otherwise each field is
extracted from the page independently. -/
def get_ipphone_status : FetchResult → String × String
  | FetchResult.err => ("N/A", "N/A")
  | FetchResult.ok p => (extract_uptime p, extract_callstate p)

/-- What `driver = create_driver()` (line 125) does.  The call sits
outside every `try` block, so when Chrome session creation raises, the
exception propagates out of the task before anything is appended;
`executor.map` results are never iterated, so the exception is then
silently dropped.  On success the oracle further records the fetch
outcome and whether the reboot GET (`driver.get(reboot_url)`) raises. -/
inductive DriverResult where
  | raise : DriverResult
  | ok : FetchResult → Bool → DriverResult
  deriving DecidableEq

/-- Oracle for one run of `reboot_ipphone` on one device: whether
`is_reachable` returns true, and what driver creation (and, when it
succeeds, the status fetch and the reboot GET) does. -/
structure DeviceEnv where
  reachable : Bool
  driver : DriverResult
  deriving DecidableEq

/-- Observable outcome of one `reboot_ipphone` task: the entries it appends
to `log_entries`, how many status fetches and reboot GETs it issues,
whether a reboot GET raised (which the code only logs), and whether the
task aborted with an uncaught exception from driver creation (in which
case it recorded nothing). -/
structure TaskOutcome where
  entries : List LogEntry
  statusFetches : Nat
  rebootCalls : Nat
  rebootError : Bool
  crashed : Bool
  deriving DecidableEq

/-- `reboot_ipphone` (lines 115-143): ping gate first; unreachable devices
are recorded as `("N/A", "Unreachable")` with no driver, no fetch and no
reboot.  Otherwise `create_driver()` runs unprotected: if it raises, the
task dies having appended nothing.  With a driver, the status is fetched
once, the entry is appended, and the reboot GET is issued exactly when
the call state is "0 Active Calls"; an exception from the GET is caught
and only logged. -/
def reboot_ipphone (device : Device) (env : DeviceEnv) : TaskOutcome :=
  if !env.reachable then
    { entries := [⟨device.ip, device.name, "N/A", "Unreachable"⟩],
      statusFetches := 0, rebootCalls := 0, rebootError := false,
      crashed := false }
  else
    match env.driver with
    | DriverResult.raise =>
      { entries := [], statusFetches := 0, rebootCalls := 0,
        rebootError := false, crashed := true }
    | DriverResult.ok fetch rebootRaises =>
      let st := get_ipphone_status fetch
      let entry : LogEntry := ⟨device.ip, device.name, st.1, st.2⟩
      if st.2 ≠ "0 Active Calls" then
        { entries := [entry], statusFetches := 1, rebootCalls := 0,
          rebootError := false, crashed := false }
      else
        { entries := [entry], statusFetches := 1, rebootCalls := 1,
          rebootError := rebootRaises, crashed := false }

/-- The fleet pass (lines 225-226).
`ThreadPoolExecutor(max_workers=len(ip_phones))` raises `ValueError` for
an empty device list (`max_workers` must be positive), which nothing
catches, so the run dies (`none`).  Otherwise
`executor.map(reboot_ipphone, ip_phones)` runs the task once per device
row and the shared `log_entries` collects the appended entries
(completion order may interleave, which only permutes the list and never
changes its size); a task that dies in driver creation contributes no
entry and its exception is dropped. -/
def run_fleet (devices : List Device) (envOf : Device → DeviceEnv) :
    Option (List LogEntry) :=
  if devices.length = 0 then none
  else some (devices.flatMap fun d => (reboot_ipphone d (envOf d)).entries)

/-- The row-classification chain of `build_html_report` (lines 156-167):
for a given callstate it returns the pair (row style attribute, status
label), checking "Unreachable", then "N/A", then anything other than
"0 Active Calls", else "Rebooted". -/
def classify_row (callstate : String) : String × String :=
  if callstate = "Unreachable" then
    (" style=\"background-color: #ff9999;\"", "Unreachable")
  else if callstate = "N/A" then
    (" style=\"background-color: #ffcccc;\"", "Error")
  else if callstate ≠ "0 Active Calls" then
    (" style=\"background-color: #fff8b3;\"", "Skipped")
  else
    (" style=\"background-color: #ccffcc;\"", "Rebooted")

/-- The fixed opening of the HTML report (lines 147-154). -/
def report_header : String :=
  "\n    <html><body>\n    <h3>IP Phone Reboot Status Report</h3>\n    <table border=\"1\" cellspacing=\"0\" cellpadding=\"5\" style=\"border-collapse: collapse; font-family: Arial;\">\n        <tr style=\"background-color:#f2f2f2;\">\n            <th>S.No</th><th>IP</th><th>Name</th><th>UpTime</th><th>CallState</th><th>Status</th>\n        </tr>\n    "

/-- The fixed closing of the HTML report (line 171). -/
def report_footer : String :=
  "</table></body></html>"

/-- One table row of the report (line 169). -/
def render_row (idx : Nat) (e : LogEntry) : String :=
  let sc := classify_row e.callstate
  "<tr" ++ sc.1 ++ "><td>" ++ toString idx ++ "</td><td>" ++ e.ip ++
    "</td><td>" ++ e.name ++ "</td><td>" ++ e.uptime ++ "</td><td>" ++
    e.callstate ++ "</td><td>" ++ sc.2 ++ "</td></tr>"

/-- The row loop of `build_html_report`: `enumerate(log_entries, start=1)`. -/
def render_rows : Nat → List LogEntry → String
  | _, [] => ""
  | idx, e :: es => render_row idx e ++ render_rows (idx + 1) es

/-- `build_html_report` (lines 146-172), as a pure function of the entry
list instead of the global `log_entries`. -/
def build_html_report (entries : List LogEntry) : String :=
  report_header ++ render_rows 1 entries ++ report_footer

/-- The subject string returned when some entry is in error (line 192). -/
def subject_errors : String := "IP Phone Reboot Report – Errors Found ⚠"

/-- The subject string returned when no entry is in error (line 193). -/
def subject_ok : String := "IP Phone Reboot Report – All OK ✔"

/-- The per-entry test of `get_email_subject` (line 191):
`callstate in ["N/A", "Unreachable"]`. -/
def is_error_entry (e : LogEntry) : Bool :=
  e.callstate = "N/A" || e.callstate = "Unreachable"

/-- `get_email_subject` (lines 189-193): first-match scan over the entries;
return the errors subject on the first entry whose callstate is "N/A" or
"Unreachable", the all-OK subject if none is found. -/
def get_email_subject : List LogEntry → String
  | [] => subject_ok
  | e :: es => if is_error_entry e then subject_errors else get_email_subject es

/-- A raw CSV row as seen by `csv.DictReader`: each required column is
present (`some`) or missing (`none`, so that `row[key]` raises KeyError). -/
structure RawRow where
  ip : Option String
  user : Option String
  password : Option String
  name : Option String
  deriving DecidableEq

/-- What opening and reading `devices.csv` yields: `failure` when `open`
or the reader raises (missing file, undecodable bytes), otherwise the
parsed rows. -/
inductive CsvRead where
  | failure : CsvRead
  | rows : List RawRow → CsvRead
  deriving DecidableEq

/-- The body of the row loop in `read_ipphones_from_csv` (lines 64-70):
build the device dict from the four required columns, stripped; a missing
column raises KeyError (modelled as `none`). -/
def parseRow (r : RawRow) : Option Device :=
  match r.ip, r.user, r.password, r.name with
  | some i, some u, some p, some n => some ⟨strip i, strip u, strip p, strip n⟩
  | _, _, _, _ => none

/-- The accumulating row loop of `read_ipphones_from_csv`: a row whose
lookup raises aborts the whole read and the handler returns the empty
list, discarding rows already accumulated. -/
def readRows : List RawRow → List Device → List Device
  | [], acc => acc.reverse
  | r :: rs, acc =>
    match parseRow r with
    | none => []
    | some d => readRows rs (d :: acc)

/-- `read_ipphones_from_csv` (lines 59-74): any exception (unreadable file
or malformed row) is caught and yields the empty device list. -/
def read_ipphones_from_csv : CsvRead → List Device
  | CsvRead.failure => []
  | CsvRead.rows rs => readRows rs []

/-- The whole per-run pipeline of the main block (lines 222-231): load the
device list, fan out `reboot_ipphone` over it, and render the report from
the collected entries.  `none` models the uncaught `ValueError` from the
executor construction killing the process at line 225, before
`save_daily_html_log()` ever runs. -/
def run_pipeline (source : CsvRead) (envOf : Device → DeviceEnv) :
    Option (List LogEntry × String) :=
  match run_fleet (read_ipphones_from_csv source) envOf with
  | none => none
  | some entries => some (entries, build_html_report entries)

/-- Observable outcome of `send_error_email`: how many delivery attempts
were made, the list of cooldowns slept (in order), and whether a delivery
succeeded.  The Python function swallows every exception inside the loop,
so it always returns normally; totality of this model reflects that. -/
structure SendOutcome where
  attempts : Nat
  sleeps : List Nat
  delivered : Bool
  deriving DecidableEq

/-- The retry loop of `send_error_email` (lines 200-219).  `ok a` tells
whether the delivery attempt numbered `a` succeeds; `fuel` counts the
attempts remaining (initially `retries`).  On success the loop breaks; on
failure it sleeps `delay` only when further attempts remain
(`attempt < retries`, i.e. `0 < fuel` after consuming this attempt). -/
def send_attempts (ok : Nat → Bool) (delay : Nat) : Nat → Nat → SendOutcome
  | _, 0 => { attempts := 0, sleeps := [], delivered := false }
  | attempt, fuel + 1 =>
    if ok attempt then
      { attempts := 1, sleeps := [], delivered := true }
    else
      let rest := send_attempts ok delay (attempt + 1) fuel
      { attempts := rest.attempts + 1,
        sleeps := (if 0 < fuel then [delay] else []) ++ rest.sleeps,
        delivered := rest.delivered }

/-- `send_error_email` (lines 196-219): `for attempt in range(1, retries+1)`
with the source defaults `retries=2, delay=300`. -/
def send_error_email (ok : Nat → Bool) (retries : Nat) (delay : Nat) :
    SendOutcome :=
  send_attempts ok delay 1 retries

/-! Concrete inputs reused by witnesses and the counterexample. -/

/-- A sample device row. -/
def deviceA : Device := ⟨"10.0.0.1", "admin", "pw", "Lobby"⟩

/-- A status page reporting an idle call state. -/
def idlePage : StatusPage :=
  ⟨some (some "5 days"), some (some (some (some "0 Active Calls")))⟩

/-- A status page reporting an active call. -/
def busyPage : StatusPage :=
  ⟨some (some "5 days"), some (some (some (some "2 Active Calls")))⟩

/-- A status page whose CallState cell happens to carry the literal text
that the report reserves as its unreachable marker. -/
def spoofPage : StatusPage :=
  ⟨some (some "10 days"), some (some (some (some "Unreachable")))⟩

/-! Helper lemmas. -/

/-- Each task that does not die in driver creation appends exactly one
entry. -/
theorem reboot_ipphone_entries_length (d : Device) (env : DeviceEnv)
    (h : (reboot_ipphone d env).crashed = false) :
    (reboot_ipphone d env).entries.length = 1 := by
  rcases env with ⟨reachable, driver⟩
  cases reachable with
  | false => rfl
  | true =>
    cases driver with
    | raise => simp [reboot_ipphone] at h
    | ok f rb =>
      by_cases hidle : (get_ipphone_status f).2 = "0 Active Calls" <;>
        simp [reboot_ipphone, hidle]

/-- A fleet pass over tasks that all survive driver creation collects
exactly one entry per device row. -/
theorem fleet_entries_length (devices : List Device)
    (envOf : Device → DeviceEnv)
    (h : ∀ d ∈ devices, (reboot_ipphone d (envOf d)).crashed = false) :
    (devices.flatMap fun d => (reboot_ipphone d (envOf d)).entries).length
      = devices.length := by
  induction devices with
  | nil => rfl
  | cons d ds ih =>
    rw [List.flatMap_cons, List.length_append,
      reboot_ipphone_entries_length d (envOf d) (h d (List.mem_cons_self d ds)),
      ih (fun x hx => h x (List.mem_cons_of_mem d hx)), List.length_cons]
    omega

/-! Claims. -/

/-- C1: for a device whose ping succeeds, whose driver was created and
whose extracted call state is exactly "0 Active Calls", the task issues
the reboot GET exactly once (`executor.map` runs the task once per device
row, so this is once per run for that device; the hypotheses presuppose a
fetched call state, hence a created driver). -/
theorem claim_C1 (d : Device) (env : DeviceEnv) (f : FetchResult) (rb : Bool)
    (hreach : env.reachable = true)
    (hdrv : env.driver = DriverResult.ok f rb)
    (hidle : (get_ipphone_status f).2 = "0 Active Calls") :
    (reboot_ipphone d env).rebootCalls = 1 := by
  simp [reboot_ipphone, hreach, hdrv, hidle]

/-- C1 witness: a reachable, idle device. -/
theorem claim_C1_witness :
    (reboot_ipphone deviceA
      ⟨true, DriverResult.ok (FetchResult.ok idlePage) false⟩).rebootCalls = 1 :=
  claim_C1 deviceA ⟨true, DriverResult.ok (FetchResult.ok idlePage) false⟩
    (FetchResult.ok idlePage) false rfl rfl (by decide)

/-- C2: a device whose ping fails is recorded as `("N/A", "Unreachable")`,
the report classifies that callstate as Unreachable, and the task performs
no status fetch and no reboot GET (and never reaches driver creation). -/
theorem claim_C2 (d : Device) (env : DeviceEnv)
    (hunreach : env.reachable = false) :
    reboot_ipphone d env =
      { entries := [⟨d.ip, d.name, "N/A", "Unreachable"⟩],
        statusFetches := 0, rebootCalls := 0, rebootError := false,
        crashed := false }
    ∧ (classify_row "Unreachable").2 = "Unreachable" := by
  refine ⟨?_, rfl⟩
  simp [reboot_ipphone, hunreach]

/-- C2 witness: an unreachable device. -/
theorem claim_C2_witness :
    reboot_ipphone deviceA ⟨false, DriverResult.ok FetchResult.err false⟩ =
      { entries := [⟨"10.0.0.1", "Lobby", "N/A", "Unreachable"⟩],
        statusFetches := 0, rebootCalls := 0, rebootError := false,
        crashed := false }
    ∧ (classify_row "Unreachable").2 = "Unreachable" :=
  claim_C2 deviceA ⟨false, DriverResult.ok FetchResult.err false⟩ rfl

/-- C4 counterexample: a reachable device whose `create_driver()` call
raises appends zero entries (the exception leaves the task before the
append and is dropped by the never-iterated `executor.map` result), so a
one-device fleet ends with an empty result set; and for the empty device
list the executor construction itself raises, so no result set exists at
orchestration end at all. -/
theorem claim_C4_counterexample :
    (reboot_ipphone deviceA ⟨true, DriverResult.raise⟩).entries.length = 0
    ∧ run_fleet [deviceA] (fun _ => ⟨true, DriverResult.raise⟩) = some []
    ∧ ([] : List LogEntry).length ≠ [deviceA].length
    ∧ run_fleet [] (fun _ => ⟨true, DriverResult.raise⟩) = none := by
  refine ⟨rfl, by decide, by decide, by decide⟩

/-- C4 (amended): every task that does not die in driver creation appends
exactly one entry; for a nonempty device list none of whose tasks dies in
driver creation, the fleet pass completes and collects exactly one entry
per device row. -/
theorem claim_C4 :
    (∀ (d : Device) (env : DeviceEnv),
      (reboot_ipphone d env).crashed = false →
        (reboot_ipphone d env).entries.length = 1)
    ∧ ∀ (devices : List Device) (envOf : Device → DeviceEnv),
        devices ≠ [] →
        (∀ d ∈ devices, (reboot_ipphone d (envOf d)).crashed = false) →
        ∃ entries, run_fleet devices envOf = some entries
          ∧ entries.length = devices.length := by
  refine ⟨reboot_ipphone_entries_length, ?_⟩
  intro devices envOf hne hok
  refine ⟨devices.flatMap fun d => (reboot_ipphone d (envOf d)).entries, ?_,
    fleet_entries_length devices envOf hok⟩
  unfold run_fleet
  rw [if_neg (by simpa [List.length_eq_zero] using hne)]

/-- C4 witness: a one-device fleet whose task completes. -/
theorem claim_C4_witness :
    ∃ entries, run_fleet [deviceA]
        (fun _ => ⟨true, DriverResult.ok (FetchResult.ok idlePage) false⟩)
        = some entries
      ∧ entries.length = [deviceA].length :=
  claim_C4.2 [deviceA]
    (fun _ => ⟨true, DriverResult.ok (FetchResult.ok idlePage) false⟩)
    (by decide) (by decide)

/-- C3 counterexample: a reachable device whose status page carries the
literal CallState text "Unreachable".  The probe succeeds, the extracted
call state differs from "0 Active Calls" and no reboot GET is issued, but
the report classifies the row as "Unreachable", which is neither the
Skipped nor the Error label, so the claimed classification fails. -/
theorem claim_C3_counterexample :
    (DeviceEnv.mk true (DriverResult.ok (FetchResult.ok spoofPage) false)).reachable = true
    ∧ (get_ipphone_status (FetchResult.ok spoofPage)).2 ≠ "0 Active Calls"
    ∧ (reboot_ipphone deviceA
        ⟨true, DriverResult.ok (FetchResult.ok spoofPage) false⟩).rebootCalls = 0
    ∧ (reboot_ipphone deviceA
        ⟨true, DriverResult.ok (FetchResult.ok spoofPage) false⟩).entries =
        [⟨"10.0.0.1", "Lobby", "10 days", "Unreachable"⟩]
    ∧ (classify_row (get_ipphone_status (FetchResult.ok spoofPage)).2).2 ≠ "Skipped"
    ∧ (classify_row (get_ipphone_status (FetchResult.ok spoofPage)).2).2 ≠ "Error" := by
  refine ⟨rfl, by decide, by decide, by decide, by decide, by decide⟩

/-- C3 (amended): for a reachable device whose driver was created and
whose extracted call state is not "0 Active Calls", no reboot GET is
issued; and provided the extracted call state is not the literal marker
string "Unreachable", the row is classified Skipped or Error. -/
theorem claim_C3 (d : Device) (env : DeviceEnv) (f : FetchResult) (rb : Bool)
    (hreach : env.reachable = true)
    (hdrv : env.driver = DriverResult.ok f rb)
    (hbusy : (get_ipphone_status f).2 ≠ "0 Active Calls") :
    (reboot_ipphone d env).rebootCalls = 0
    ∧ ((get_ipphone_status f).2 ≠ "Unreachable" →
        (classify_row (get_ipphone_status f).2).2 = "Skipped"
        ∨ (classify_row (get_ipphone_status f).2).2 = "Error") := by
  constructor
  · simp [reboot_ipphone, hreach, hdrv, hbusy]
  · intro hmark
    by_cases hna : (get_ipphone_status f).2 = "N/A"
    · right
      simp [classify_row, hna]
    · left
      simp [classify_row, hmark, hna, hbusy]

/-- C3 witness: a reachable device with an active call is skipped. -/
theorem claim_C3_witness :
    (reboot_ipphone deviceA
      ⟨true, DriverResult.ok (FetchResult.ok busyPage) false⟩).rebootCalls = 0
    ∧ ((get_ipphone_status (FetchResult.ok busyPage)).2 ≠ "Unreachable" →
        (classify_row (get_ipphone_status (FetchResult.ok busyPage)).2).2 = "Skipped"
        ∨ (classify_row (get_ipphone_status (FetchResult.ok busyPage)).2).2 = "Error") :=
  claim_C3 deviceA ⟨true, DriverResult.ok (FetchResult.ok busyPage) false⟩
    (FetchResult.ok busyPage) false rfl rfl (by decide)

/-- C9: the result row is appended before the reboot GET, so when the GET
raises, the entry list is unchanged with respect to the non-raising run,
the raised error is only recorded for logging, and the appended row (call
state "0 Active Calls") is classified "Rebooted". -/
theorem claim_C9 (d : Device) (f : FetchResult)
    (hidle : (get_ipphone_status f).2 = "0 Active Calls") :
    (reboot_ipphone d ⟨true, DriverResult.ok f true⟩).rebootError = true
    ∧ (reboot_ipphone d ⟨true, DriverResult.ok f true⟩).entries
        = (reboot_ipphone d ⟨true, DriverResult.ok f false⟩).entries
    ∧ ∀ e ∈ (reboot_ipphone d ⟨true, DriverResult.ok f true⟩).entries,
        (classify_row e.callstate).2 = "Rebooted" := by
  refine ⟨?_, ?_, ?_⟩
  · simp [reboot_ipphone, hidle]
  · simp [reboot_ipphone, hidle]
  · intro e he
    simp [reboot_ipphone, hidle] at he
    subst he
    simp [classify_row, hidle]

/-- C9 witness: an idle device whose reboot GET raises. -/
theorem claim_C9_witness :
    (reboot_ipphone deviceA
      ⟨true, DriverResult.ok (FetchResult.ok idlePage) true⟩).rebootError = true
    ∧ (reboot_ipphone deviceA
        ⟨true, DriverResult.ok (FetchResult.ok idlePage) true⟩).entries
        = (reboot_ipphone deviceA
            ⟨true, DriverResult.ok (FetchResult.ok idlePage) false⟩).entries
    ∧ ∀ e ∈ (reboot_ipphone deviceA
        ⟨true, DriverResult.ok (FetchResult.ok idlePage) true⟩).entries,
        (classify_row e.callstate).2 = "Rebooted" :=
  claim_C9 deviceA (FetchResult.ok idlePage) (by decide)

/-- C10: the report classification checks the callstate in the fixed order
Unreachable, N/A, not idle, Rebooted; in particular a callstate of "N/A"
is labelled "Error" and never "Skipped", even though it also differs from
"0 Active Calls". -/
theorem claim_C10 :
    (classify_row "Unreachable").2 = "Unreachable"
    ∧ (classify_row "N/A").2 = "Error"
    ∧ (∀ cs : String, cs ≠ "Unreachable" → cs ≠ "N/A" →
        cs ≠ "0 Active Calls" → (classify_row cs).2 = "Skipped")
    ∧ (classify_row "0 Active Calls").2 = "Rebooted"
    ∧ (classify_row "N/A").2 ≠ "Skipped" := by
  refine ⟨by decide, by decide, ?_, by decide, by decide⟩
  intro cs h1 h2 h3
  simp [classify_row, h1, h2, h3]

/-- C10 witness: a busy callstate is classified Skipped. -/
theorem claim_C10_witness :
    (classify_row "2 Active Calls").2 = "Skipped" :=
  claim_C10.2.2.1 "2 Active Calls" (by decide) (by decide) (by decide)

/-- When every attempt fails, the loop consumes all its fuel, sleeping
after every failed attempt except the last. -/
theorem send_attempts_persistent (ok : Nat → Bool) (delay : Nat)
    (hfail : ∀ n, ok n = false) :
    ∀ (fuel a : Nat), send_attempts ok delay a fuel =
      { attempts := fuel, sleeps := List.replicate (fuel - 1) delay,
        delivered := false } := by
  intro fuel
  induction fuel with
  | zero => intro a; rfl
  | succ f ih =>
    intro a
    rw [send_attempts, hfail a]
    simp only [Bool.false_eq_true, if_false, ih (a + 1)]
    cases f with
    | zero => rfl
    | succ k => simp [List.replicate_succ]

/-- C5: under persistent delivery failure, `send_error_email` makes exactly
`retries` attempts, sleeps the configured cooldown exactly between
consecutive attempts (so `retries - 1` times, never after the last), and
returns normally without delivering. -/
theorem claim_C5 (ok : Nat → Bool) (retries delay : Nat)
    (hfail : ∀ n, ok n = false) :
    send_error_email ok retries delay =
      { attempts := retries, sleeps := List.replicate (retries - 1) delay,
        delivered := false } :=
  send_attempts_persistent ok delay hfail retries 1

/-- C5 witness: the source defaults `retries=2, delay=300` with every
attempt failing give two attempts and one 300-second sleep. -/
theorem claim_C5_witness :
    send_error_email (fun _ => false) 2 300 =
      { attempts := 2, sleeps := [300], delivered := false } :=
  claim_C5 (fun _ => false) 2 300 (fun _ => rfl)

/-- `get_email_subject` agrees with an existential scan of the entries. -/
theorem subject_spec (l : List LogEntry) :
    get_email_subject l =
      if l.any is_error_entry then subject_errors else subject_ok := by
  induction l with
  | nil => rfl
  | cons e es ih =>
    by_cases h : is_error_entry e <;> simp [get_email_subject, h, ih]

/-- A permutation preserves the existence of an error entry. -/
theorem any_error_of_perm (l l' : List LogEntry) (hp : l.Perm l')
    (h : l.any is_error_entry = true) : l'.any is_error_entry = true := by
  rw [List.any_eq_true] at h ⊢
  obtain ⟨x, hx, hpx⟩ := h
  exact ⟨x, hp.mem_iff.mp hx, hpx⟩

/-- C6: the subject is the errors variant exactly when some entry has
callstate "N/A" or "Unreachable"; otherwise it is the all-OK variant, and
the subject is invariant under permutation of the entry list. -/
theorem claim_C6 :
    (∀ l : List LogEntry,
      (get_email_subject l = subject_errors ↔
        ∃ e ∈ l, e.callstate = "N/A" ∨ e.callstate = "Unreachable")
      ∧ (get_email_subject l ≠ subject_errors → get_email_subject l = subject_ok))
    ∧ ∀ (l l' : List LogEntry), l.Perm l' →
        get_email_subject l = get_email_subject l' := by
  have hsubne : subject_ok ≠ subject_errors := by decide
  constructor
  · intro l
    constructor
    · rw [subject_spec]
      by_cases h : l.any is_error_entry = true
      · rw [if_pos h]
        rw [List.any_eq_true] at h
        obtain ⟨x, hx, hpx⟩ := h
        simp only [is_error_entry, Bool.or_eq_true, decide_eq_true_eq] at hpx
        exact ⟨fun _ => ⟨x, hx, hpx⟩, fun _ => rfl⟩
      · rw [if_neg h]
        constructor
        · intro hcontra; exact absurd hcontra hsubne
        · intro hex
          exfalso
          obtain ⟨x, hx, hpx⟩ := hex
          refine h (List.any_eq_true.mpr ⟨x, hx, ?_⟩)
          simp [is_error_entry, hpx]
    · rw [subject_spec]
      by_cases h : l.any is_error_entry = true
      · rw [if_pos h]
        intro hc
        exact absurd rfl hc
      · rw [if_neg h]
        intro _
        rfl
  · intro l l' hp
    rw [subject_spec, subject_spec]
    have hany : l.any is_error_entry = l'.any is_error_entry := by
      cases hl : l.any is_error_entry with
      | true => exact (any_error_of_perm l l' hp hl).symm
      | false =>
        cases hl' : l'.any is_error_entry with
        | false => rfl
        | true =>
          rw [any_error_of_perm l' l hp.symm hl'] at hl
          exact hl.symm
    rw [hany]

/-- C6 witness: swapping two concrete entries leaves the subject fixed. -/
theorem claim_C6_witness :
    get_email_subject
        [⟨"10.0.0.1", "Lobby", "N/A", "N/A"⟩,
         ⟨"10.0.0.2", "Desk1", "5 days", "0 Active Calls"⟩]
      = get_email_subject
        [⟨"10.0.0.2", "Desk1", "5 days", "0 Active Calls"⟩,
         ⟨"10.0.0.1", "Lobby", "N/A", "N/A"⟩] :=
  claim_C6.2 _ _
    (List.Perm.swap (⟨"10.0.0.2", "Desk1", "5 days", "0 Active Calls"⟩ : LogEntry)
      (⟨"10.0.0.1", "Lobby", "N/A", "N/A"⟩ : LogEntry) [])

/-- A row with a missing required column aborts the whole CSV read: the
exception handler returns the empty list whatever was accumulated. -/
theorem readRows_of_bad_row :
    ∀ (rs : List RawRow) (acc : List Device),
      (∃ r ∈ rs, parseRow r = none) → readRows rs acc = [] := by
  intro rs
  induction rs with
  | nil =>
    intro acc h
    simp at h
  | cons r rs ih =>
    intro acc h
    obtain ⟨x, hx, hpx⟩ := h
    rcases List.mem_cons.mp hx with hxr | hxs
    · subst hxr
      simp [readRows, hpx]
    · cases hp : parseRow r with
      | none => simp [readRows, hp]
      | some d =>
        rw [readRows, hp]
        exact ih (d :: acc) ⟨x, hxs, hpx⟩

/-- C7: a code bug.  The loader half of the claim holds: a missing or
unreadable device file, and likewise a row lacking a required column,
yield the empty device list (the handler at lines 72-74 exists precisely
so the run survives).  But the pipeline half fails: with the resulting
empty device list, `ThreadPoolExecutor(max_workers=0)` at line 225 raises
an uncaught `ValueError`, so the process dies before
`save_daily_html_log()` and no empty report is ever produced. -/
theorem claim_C7 :
    read_ipphones_from_csv CsvRead.failure = []
    ∧ read_ipphones_from_csv (CsvRead.rows [⟨none, none, none, none⟩]) = []
    ∧ (∀ envOf : Device → DeviceEnv,
        run_fleet (read_ipphones_from_csv CsvRead.failure) envOf = none)
    ∧ (∀ envOf : Device → DeviceEnv,
        run_pipeline CsvRead.failure envOf = none)
    ∧ (∀ envOf : Device → DeviceEnv,
        run_pipeline (CsvRead.rows [⟨none, none, none, none⟩]) envOf = none) := by
  exact ⟨rfl, rfl, fun envOf => rfl, fun envOf => rfl, fun envOf => rfl⟩

/-- C8: the status extractor is a total function (every exception is caught
and becomes the sentinel pair), and each of the two fields falls back to
its sentinel independently: an absent UpTime cell yields "N/A" for uptime
whatever the CallState chain holds, an incomplete CallState chain yields
"N/A" for callstate whatever the UpTime cell holds, and each component
depends only on its own part of the page. -/
theorem claim_C8 :
    get_ipphone_status FetchResult.err = ("N/A", "N/A")
    ∧ (∀ s, (get_ipphone_status (FetchResult.ok ⟨none, s⟩)).1 = "N/A")
    ∧ (∀ u s, (∀ v, s ≠ some (some (some (some v)))) →
        (get_ipphone_status (FetchResult.ok ⟨u, s⟩)).2 = "N/A")
    ∧ (∀ u s s', (get_ipphone_status (FetchResult.ok ⟨u, s⟩)).1
        = (get_ipphone_status (FetchResult.ok ⟨u, s'⟩)).1)
    ∧ (∀ u u' s, (get_ipphone_status (FetchResult.ok ⟨u, s⟩)).2
        = (get_ipphone_status (FetchResult.ok ⟨u', s⟩)).2) := by
  refine ⟨rfl, fun s => rfl, ?_, fun u s s' => rfl, fun u u' s => rfl⟩
  intro u s h
  rcases s with _ | (_ | (_ | (_ | v)))
  · rfl
  · rfl
  · rfl
  · rfl
  · exact absurd rfl (h v)

/-- C8 witness: a page with an UpTime cell but a truncated CallState chain
(the "Service Status" section has no following table) yields the sentinel
for callstate only. -/
theorem claim_C8_witness :
    (get_ipphone_status (FetchResult.ok ⟨some (some "9 days"), some none⟩)).2 = "N/A" :=
  claim_C8.2.2.1 (some (some "9 days")) (some none)
    (fun v h => by simp at h)
